import Mathlib

/-!
Verification development for the TexMCP render-and-compile pipeline.

Shallow embedding of the core components found in `src/mcp_server`:
the job namer (`sanitize_jobname`), the source writer (`write_tex`),
the compiler invoker (`compile_pdf`), the render service (`render_tex`,
`render_template`) and the protocol-layer tools (`render_latex_document`,
`render_template_document`).  Strings are modelled as `List Char`;
the filesystem, the process-spawn results, the random default jobname
and the template resolver are oracle parameters gathered in `World`.
-/

namespace TexMCP

/-- Model of Python `str.isalnum` on one character, exact on the ASCII and
Latin-1 ranges (the only code points this development evaluates): ASCII
letters and digits; in the Latin-1 supplement, the ordinal indicators
U+00AA and U+00BA, the micro sign U+00B5, the superscript digits U+00B2,
U+00B3 and U+00B9, the vulgar fractions U+00BC to U+00BE, and the letters
U+00C0 to U+00FF except the multiplication sign U+00D7 and the division
sign U+00F7.  Code points above U+00FF are left unclassified (returned
false); no theorem below depends on their classification. -/
def pyIsAlnum (c : Char) : Bool :=
  (('A' ≤ c && c ≤ 'Z') || ('a' ≤ c && c ≤ 'z') || ('0' ≤ c && c ≤ '9')) ||
  (c = 'ª' || c = 'µ' || c = 'º' ||
   c = '²' || c = '³' || c = '¹' ||
   ('¼' ≤ c && c ≤ '¾') ||
   (('À' ≤ c && c ≤ 'ÿ') && !(c = '×') && !(c = '÷')))

/-- The keep-condition of the comprehension in `sanitize_jobname`:
`c.isalnum() or c in ("-", "_")`. -/
def keepChar (c : Char) : Bool :=
  pyIsAlnum c || c = '-' || c = '_'

/-- Model of Python `str.strip(cut)`: remove leading and then trailing
characters that belong to `cut`. -/
def stripChars (cut : List Char) (s : List Char) : List Char :=
  (((s.dropWhile fun c => cut.contains c).reverse.dropWhile
      fun c => cut.contains c).reverse)

/-- `sanitize_jobname` from `latex_renderer.py`:
`allowed = [c if c.isalnum() or c in ("-", "_") else "_" for c in value]`
then `"".join(allowed).strip("._") or "document"` (Python `or` picks the
fallback exactly when the stripped string is empty). -/
def sanitize_jobname (value : List Char) : List Char :=
  let allowed := value.map fun c => if keepChar c then c else '_'
  let stripped := stripChars ['.', '_'] allowed
  if stripped = [] then "document".toList else stripped

/-- The character class `[A-Za-z0-9_-]` named by the spec's testable
property for `sanitize`; spec-side definition used only to state claims
about the output alphabet. -/
def inAsciiClass (c : Char) : Bool :=
  ('A' ≤ c && c ≤ 'Z') || ('a' ≤ c && c ≤ 'z') || ('0' ≤ c && c ≤ '9') ||
  c = '_' || c = '-'

/-! Compiler Invoker: `LatexRenderer` from `latex_renderer.py`. -/

/-- Result of one spawned compiler process: whether it exited with status 0,
and its captured combined stdout+stderr (`stdout=PIPE`, `stderr=STDOUT`,
`text=True`). -/
structure ProcResult where
  exitZero : Bool
  output : List Char
deriving DecidableEq

/-- Environment handed to a spawned process: `inherited` models `env=None`
(the child inherits the parent environment unmodified); `withTexInputs v`
models `os.environ.copy()` with `TEXINPUTS` set to `v`. -/
inductive SpawnEnv where
  | inherited : SpawnEnv
  | withTexInputs : List Char → SpawnEnv
deriving DecidableEq

/-- One process spawn made by `compile_pdf`: the environment it received and
its result. -/
structure SpawnRecord where
  env : SpawnEnv
  result : ProcResult
deriving DecidableEq

/-- Oracle for everything outside the program: the result of the k-th
process spawn of a compile call, whether the expected artifact exists on
disk after the passes, the platform path separator `os.pathsep`, the
system temporary directory `tempfile.gettempdir()`, the random default
jobname `doc_` ++ `secrets.token_hex(4)`, and the template engine's
expansion (name to rendered source, `none` when `jinja2` raises
`TemplateNotFound`). -/
structure World where
  procs : Nat → ProcResult
  pdfExists : Bool
  pathsep : List Char
  tmpdir : List Char
  defaultJobname : List Char
  templates : List Char → Option (List Char)

/-- The `LatexRenderer` dataclass: `_pdflatex_available` is the
construction-time probe `shutil.which(self.pdflatex_path) is not None`
computed in `__post_init__` and never recomputed. -/
structure LatexRenderer where
  work_dir : List Char
  pdflatex_path : List Char
  tex_inputs : Option (List (List Char))
  _pdflatex_available : Bool

/-- The four terminal outcomes of `compile_pdf`: `success` is the normal
return (the artifact path); `missingBinary` models raising
`FileNotFoundError`; `compileFailure log` models raising
`LatexCompileError(..., log=err.stdout)` from a non-zero exit;
`artifactNotProduced` models raising `LatexCompileError` when the PDF is
absent after all passes succeeded. -/
inductive CompileOutcome where
  | success : List Char → CompileOutcome
  | missingBinary : CompileOutcome
  | compileFailure : List Char → CompileOutcome
  | artifactNotProduced : CompileOutcome
deriving DecidableEq

/-- `LatexRenderer._join_tex_inputs`:
`os.pathsep.join([*paths, "", tempfile.gettempdir()])`. -/
def _join_tex_inputs (pathsep tmpdir : List Char)
    (paths : List (List Char)) : List Char :=
  List.intercalate pathsep (paths ++ [[], tmpdir])

/-- Model of `pathlib.Path.with_suffix`: the final path component has its
extension (everything from its last dot, when that dot is not its first
character) removed, and `suffix` appended. -/
def with_suffix (p suffix : List Char) : List Char :=
  let name := (p.reverse.takeWhile fun c => !(c = '/')).reverse
  let dir := (p.reverse.dropWhile fun c => !(c = '/')).reverse
  let rev := name.reverse
  let after := rev.takeWhile fun c => !(c = '.')
  let stem :=
    if after.length = rev.length then name
    else
      let kept := (rev.dropWhile fun c => !(c = '.')).tail
      if kept = [] then name else kept.reverse
  dir ++ stem ++ suffix

/-- The `for _ in range(n)` loop around `subprocess.run(..., check=True)`:
run up to `n` passes with spawn indices starting at `start`; return the
results of the spawns actually made, and `some log` when a pass exited
non-zero (`CalledProcessError` carrying the captured output of that pass),
`none` when every pass exited 0. -/
def runPasses (procs : Nat → ProcResult) :
    Nat → Nat → List ProcResult × Option (List Char)
  | _, 0 => ([], none)
  | start, n + 1 =>
    let r := procs start
    if r.exitZero then
      let rest := runPasses procs (start + 1) n
      (r :: rest.1, rest.2)
    else ([r], some r.output)

/-- `LatexRenderer.compile_pdf`: guard on the construction-time
availability probe (raise `FileNotFoundError` before any spawn); build the
`TEXINPUTS` environment only when `self.tex_inputs` is truthy (neither
`None` nor empty); run `max(runs, 1)` passes, aborting on the first
non-zero exit; finally check that `tex_path.with_suffix(".pdf")` exists.
Returns the outcome together with the record of the processes actually
spawned, each with the environment it received. -/
def LatexRenderer.compile_pdf (r : LatexRenderer) (w : World)
    (tex_path : List Char) (runs : Int) :
    CompileOutcome × List SpawnRecord :=
  if r._pdflatex_available then
    let env : SpawnEnv :=
      match r.tex_inputs with
      | none => .inherited
      | some paths =>
        if paths = [] then .inherited
        else .withTexInputs (_join_tex_inputs w.pathsep w.tmpdir paths)
    let passes := runPasses w.procs 0 (max runs 1).toNat
    let spawns := passes.1.map fun pr => SpawnRecord.mk env pr
    let outcome : CompileOutcome :=
      match passes.2 with
      | some log => .compileFailure log
      | none =>
        if w.pdfExists then .success (with_suffix tex_path ".pdf".toList)
        else .artifactNotProduced
    (outcome, spawns)
  else (.missingBinary, [])

/-! Source Writer and Render Service: `write_tex` from `latex_renderer.py`
and `LatexService` from `service.py`. -/

/-- Filesystem model: a map from paths to file contents. -/
def FS : Type := List Char → Option (List Char)

/-- `Path.write_text` with overwrite semantics. -/
def fsWrite (fs : FS) (p content : List Char) : FS :=
  fun q => if q = p then some content else fs q

/-- `LatexRenderer.write_tex`: `safe_name = name.replace(" ", "_")`,
`tex_path = work_dir / (safe_name + ".tex")`,
`tex_path.write_text(tex, encoding="utf-8")` writes the source verbatim.
Returns the updated filesystem and the path written. -/
def LatexRenderer.write_tex (r : LatexRenderer) (fs : FS)
    (tex name : List Char) : FS × List Char :=
  let safe_name := name.map fun c => if c = ' ' then '_' else c
  let tex_path := r.work_dir ++ '/' :: (safe_name ++ ".tex".toList)
  (fsWrite fs tex_path tex, tex_path)

/-- The dictionary returned by `LatexService.render_tex`:
`{"jobname": job, "tex_path": tex_path, "pdf_path": pdf_path}` with
`pdf_path` equal to `None` when compilation was skipped. -/
structure RenderResult where
  jobname : List Char
  tex_path : List Char
  pdf_path : Option (List Char)
deriving DecidableEq

/-- The exceptions a service call can raise: `missingBinary` is
`FileNotFoundError`; `compileFailure` and `artifactNotProduced` are the two
forms of `LatexCompileError`; `templateNotFound` is `jinja2.TemplateNotFound`. -/
inductive ServiceError where
  | missingBinary : ServiceError
  | compileFailure : List Char → ServiceError
  | artifactNotProduced : ServiceError
  | templateNotFound : ServiceError
deriving DecidableEq

/-- `LatexService` dataclass; the template engine is modelled by the
oracle `World.templates`. -/
structure LatexService where
  renderer : LatexRenderer

/-- Result of one service call: the value returned or the exception raised,
the filesystem after the call, and the processes spawned during it. -/
structure ServiceRun where
  result : Except ServiceError RenderResult
  fs : FS
  spawns : List SpawnRecord

/-- `LatexService.render_tex`: `job = sanitize_jobname(jobname or
self._default_jobname())` (Python `or` treats both `None` and the empty
string as absent), write the source, and only when `compile_pdf` is set
invoke `compile_pdf`, whose raised exceptions propagate. -/
def LatexService.render_tex (svc : LatexService) (w : World) (fs : FS)
    (tex : List Char) (jobname : Option (List Char))
    (compile_pdf : Bool) (runs : Int) : ServiceRun :=
  let raw :=
    match jobname with
    | none => w.defaultJobname
    | some j => if j = [] then w.defaultJobname else j
  let job := sanitize_jobname raw
  let written := svc.renderer.write_tex fs tex job
  if compile_pdf then
    match svc.renderer.compile_pdf w written.2 runs with
    | (.success pdf, spawns) =>
      ⟨.ok ⟨job, written.2, some pdf⟩, written.1, spawns⟩
    | (.missingBinary, spawns) =>
      ⟨.error .missingBinary, written.1, spawns⟩
    | (.compileFailure log, spawns) =>
      ⟨.error (.compileFailure log), written.1, spawns⟩
    | (.artifactNotProduced, spawns) =>
      ⟨.error .artifactNotProduced, written.1, spawns⟩
  else ⟨.ok ⟨job, written.2, none⟩, written.1, []⟩

/-- `LatexService.render_template`: expand the template via the engine
(`TemplateNotFound` when the name does not resolve; the expansion for the
call's context is the oracle `w.templates`), then delegate to `render_tex`
with identical parameters. -/
def LatexService.render_template (svc : LatexService) (w : World) (fs : FS)
    (template_name : List Char) (jobname : Option (List Char))
    (compile_pdf : Bool) (runs : Int) : ServiceRun :=
  match w.templates template_name with
  | none => ⟨.error .templateNotFound, fs, []⟩
  | some tex => svc.render_tex w fs tex jobname compile_pdf runs

/-- The jobname `render_tex` derives:
`sanitize_jobname(jobname or self._default_jobname())`. -/
def jobOf (w : World) (jobname : Option (List Char)) : List Char :=
  sanitize_jobname
    (match jobname with
     | none => w.defaultJobname
     | some j => if j = [] then w.defaultJobname else j)

/-- The source path `render_tex` writes:
`work_dir / (job.replace(" ", "_") + ".tex")`. -/
def texPathOf (svc : LatexService) (w : World)
    (jobname : Option (List Char)) : List Char :=
  svc.renderer.work_dir ++
    '/' :: ((jobOf w jobname).map (fun c => if c = ' ' then '_' else c)
      ++ ".tex".toList)

/-! Protocol layer: the tool handlers from `server.py`. -/

/-- Outcome of one tool call: `ok summary warned result` is a normal
`ToolResult` (`warned` records whether `ctx.warning` was emitted);
`toolError` models raising `ToolError`; `unhandled` models an exception
escaping the handler (reachable only if the fallback attempt itself
raised, which the handler does not catch). -/
inductive ToolOutcome where
  | ok : List Char → Bool → RenderResult → ToolOutcome
  | toolError : ServiceError → ToolOutcome
  | unhandled : ServiceError → ToolOutcome

/-- Result of one tool call together with the filesystem, the processes
spawned, and the number of service invocations made. -/
structure ToolRun where
  outcome : ToolOutcome
  fs : FS
  spawns : List SpawnRecord
  calls : Nat

/-- `render_latex_document` tool handler: one `service.render_tex` call; on
`FileNotFoundError` with compilation requested, warn when a context is
attached and make exactly one fallback call with compilation disabled; on
`FileNotFoundError` without compilation requested, and on
`LatexCompileError` (compile failure or artifact not produced), raise
`ToolError` with no retry. -/
def render_latex_document (svc : LatexService) (w : World) (fs : FS)
    (tex : List Char) (jobname : Option (List Char)) (compile_pdf : Bool)
    (runs : Int) (ctxPresent : Bool) : ToolRun :=
  let first := svc.render_tex w fs tex jobname compile_pdf runs
  match first.result with
  | .ok r =>
    ⟨.ok "LaTeX rendered successfully.".toList false r, first.fs, first.spawns, 1⟩
  | .error .missingBinary =>
    if compile_pdf then
      let second := svc.render_tex w first.fs tex jobname false runs
      match second.result with
      | .ok r =>
        ⟨.ok "LaTeX saved, but pdflatex was unavailable.".toList ctxPresent r,
          second.fs, first.spawns ++ second.spawns, 2⟩
      | .error e => ⟨.unhandled e, second.fs, first.spawns ++ second.spawns, 2⟩
    else ⟨.toolError .missingBinary, first.fs, first.spawns, 1⟩
  | .error (.compileFailure log) =>
    ⟨.toolError (.compileFailure log), first.fs, first.spawns, 1⟩
  | .error .artifactNotProduced =>
    ⟨.toolError .artifactNotProduced, first.fs, first.spawns, 1⟩
  | .error .templateNotFound =>
    ⟨.unhandled .templateNotFound, first.fs, first.spawns, 1⟩

/-- `render_template_document` tool handler: like `render_latex_document`
but delegating to `service.render_template`, with `TemplateNotFound`
caught first and turned into a `ToolError` immediately (never retried,
never degraded). -/
def render_template_document (svc : LatexService) (w : World) (fs : FS)
    (template_name : List Char) (jobname : Option (List Char))
    (compile_pdf : Bool) (runs : Int) (ctxPresent : Bool) : ToolRun :=
  let first := svc.render_template w fs template_name jobname compile_pdf runs
  match first.result with
  | .ok r =>
    ⟨.ok "Template rendered successfully.".toList false r, first.fs, first.spawns, 1⟩
  | .error .templateNotFound =>
    ⟨.toolError .templateNotFound, first.fs, first.spawns, 1⟩
  | .error .missingBinary =>
    if compile_pdf then
      let second := svc.render_template w first.fs template_name jobname false runs
      match second.result with
      | .ok r =>
        ⟨.ok "Template rendered but pdflatex was unavailable.".toList ctxPresent r,
          second.fs, first.spawns ++ second.spawns, 2⟩
      | .error e => ⟨.unhandled e, second.fs, first.spawns ++ second.spawns, 2⟩
    else ⟨.toolError .missingBinary, first.fs, first.spawns, 1⟩
  | .error (.compileFailure log) =>
    ⟨.toolError (.compileFailure log), first.fs, first.spawns, 1⟩
  | .error .artifactNotProduced =>
    ⟨.toolError .artifactNotProduced, first.fs, first.spawns, 1⟩

/-! Concrete instances used by the witness theorems. -/

/-- Empty filesystem. -/
def fsEmpty : FS := fun _ => none

/-- World in which every spawned pass exits 0 and the artifact appears. -/
def wOK : World :=
  ⟨fun _ => ⟨true, []⟩, true, [':'], "/tmp".toList, "doc_0a1b2c3d".toList,
    fun _ => some "x".toList⟩

/-- World in which every spawned pass exits non-zero with log `err log`. -/
def wFail : World :=
  ⟨fun _ => ⟨false, "err log".toList⟩, false, [':'], "/tmp".toList,
    "doc_0a1b2c3d".toList, fun _ => some "x".toList⟩

/-- World whose template store is empty. -/
def wNoTemplate : World :=
  ⟨fun _ => ⟨true, []⟩, true, [':'], "/tmp".toList, "doc_0a1b2c3d".toList,
    fun _ => none⟩

/-- Renderer whose construction-time probe found the binary; no auxiliary
search paths. -/
def rAvail : LatexRenderer := ⟨"/w".toList, "pdflatex".toList, none, true⟩

/-- Renderer whose construction-time probe did not find the binary. -/
def rUnavail : LatexRenderer := ⟨"/w".toList, "pdflatex".toList, none, false⟩

/-- Renderer with one auxiliary search path. -/
def rTI : LatexRenderer :=
  ⟨"/w".toList, "pdflatex".toList, some ["/sty".toList], true⟩

/-- Renderer with an empty (falsy) auxiliary search-path list. -/
def rTIEmpty : LatexRenderer :=
  ⟨"/w".toList, "pdflatex".toList, some [], true⟩

/-- Service over the available renderer. -/
def svcAvail : LatexService := ⟨rAvail⟩

/-- Service over the unavailable renderer. -/
def svcUnavail : LatexService := ⟨rUnavail⟩

/- Helper lemmas about `dropWhile`, `stripChars` and `map`. -/

theorem mem_of_mem_dropWhile {p : Char → Bool} {l : List Char} {c : Char}
    (h : c ∈ l.dropWhile p) : c ∈ l := by
  induction l with
  | nil => simp at h
  | cons a t ih =>
    by_cases hp : p a
    · rw [List.dropWhile_cons_of_pos hp] at h
      exact List.mem_cons_of_mem a (ih h)
    · rw [List.dropWhile_cons_of_neg hp] at h
      exact h

theorem head?_dropWhile_false {p : Char → Bool} {l : List Char} {c : Char}
    (h : (l.dropWhile p).head? = some c) : p c = false := by
  induction l with
  | nil => simp at h
  | cons a t ih =>
    by_cases hp : p a
    · rw [List.dropWhile_cons_of_pos hp] at h
      exact ih h
    · rw [List.dropWhile_cons_of_neg hp] at h
      simp only [List.head?_cons, Option.some.injEq] at h
      subst h
      simpa using hp

theorem dropWhile_eq_self_of_head? {p : Char → Bool} {l : List Char}
    (h : ∀ c, l.head? = some c → p c = false) : l.dropWhile p = l := by
  cases l with
  | nil => rfl
  | cons a t =>
    have ha : p a = false := h a rfl
    exact List.dropWhile_cons_of_neg (by simp [ha])

theorem getLast?_dropWhile {p : Char → Bool} {l : List Char}
    (h : l.dropWhile p ≠ []) : (l.dropWhile p).getLast? = l.getLast? := by
  induction l with
  | nil => simp at h
  | cons a t ih =>
    by_cases hp : p a
    · rw [List.dropWhile_cons_of_pos hp] at h ⊢
      have ht : t ≠ [] := by
        intro hnil
        exact h (by simp [hnil])
      cases t with
      | nil => exact absurd rfl ht
      | cons b t2 => rw [ih h, List.getLast?_cons_cons]
    · rw [List.dropWhile_cons_of_neg hp]

theorem mem_stripChars {cut s : List Char} {c : Char}
    (h : c ∈ stripChars cut s) : c ∈ s := by
  unfold stripChars at h
  rw [List.mem_reverse] at h
  have h1 := mem_of_mem_dropWhile h
  rw [List.mem_reverse] at h1
  exact mem_of_mem_dropWhile h1

theorem head?_stripChars {cut s : List Char} {c : Char}
    (h : (stripChars cut s).head? = some c) : cut.contains c = false := by
  unfold stripChars at h
  rw [List.head?_reverse] at h
  have hne : ((s.dropWhile fun c => cut.contains c).reverse.dropWhile
      fun c => cut.contains c) ≠ [] := by
    intro hnil
    rw [hnil] at h
    simp at h
  rw [getLast?_dropWhile hne, List.getLast?_reverse] at h
  exact head?_dropWhile_false h

theorem getLast?_stripChars {cut s : List Char} {c : Char}
    (h : (stripChars cut s).getLast? = some c) : cut.contains c = false := by
  unfold stripChars at h
  rw [List.getLast?_reverse] at h
  exact head?_dropWhile_false h

theorem stripChars_eq_self {cut s : List Char}
    (hh : ∀ c, s.head? = some c → cut.contains c = false)
    (hl : ∀ c, s.getLast? = some c → cut.contains c = false) :
    stripChars cut s = s := by
  unfold stripChars
  rw [dropWhile_eq_self_of_head? hh]
  have : s.reverse.dropWhile (fun c => cut.contains c) = s.reverse := by
    refine dropWhile_eq_self_of_head? ?_
    intro c hc
    rw [List.head?_reverse] at hc
    exact hl c hc
  rw [this, List.reverse_reverse]

theorem map_eq_self_of_forall {f : Char → Char} {l : List Char}
    (h : ∀ c ∈ l, f c = c) : l.map f = l := by
  induction l with
  | nil => rfl
  | cons a t ih =>
    simp only [List.map_cons, h a (List.mem_cons_self a t),
      ih fun c hc => h c (List.mem_cons_of_mem a hc)]

/- Facts about the output of `sanitize_jobname`, shared by several claims. -/

theorem sanitize_mem_keep {x : List Char} {c : Char}
    (h : c ∈ sanitize_jobname x) : keepChar c = true := by
  unfold sanitize_jobname at h
  simp only at h
  by_cases hs : stripChars ['.', '_']
      (x.map fun c => if keepChar c then c else '_') = []
  · rw [if_pos hs] at h
    have h2 : c ∈ ['d', 'o', 'c', 'u', 'm', 'e', 'n', 't'] := h
    simp only [List.mem_cons, List.not_mem_nil, or_false] at h2
    rcases h2 with rfl | rfl | rfl | rfl | rfl | rfl | rfl | rfl <;> decide
  · rw [if_neg hs] at h
    have h1 := mem_stripChars h
    rw [List.mem_map] at h1
    obtain ⟨a, _, ha⟩ := h1
    by_cases hk : keepChar a
    · rw [if_pos hk] at ha
      rw [← ha]
      exact hk
    · rw [if_neg hk] at ha
      rw [← ha]
      decide

theorem sanitize_ne_nil (x : List Char) : sanitize_jobname x ≠ [] := by
  unfold sanitize_jobname
  by_cases hs : stripChars ['.', '_']
      (x.map fun c => if keepChar c then c else '_') = []
  · rw [if_pos hs]
    decide
  · rw [if_neg hs]
    exact hs

theorem sanitize_head? {x : List Char} {c : Char}
    (h : (sanitize_jobname x).head? = some c) : c ≠ '_' ∧ c ≠ '.' := by
  unfold sanitize_jobname at h
  simp only at h
  by_cases hs : stripChars ['.', '_']
      (x.map fun c => if keepChar c then c else '_') = []
  · rw [if_pos hs] at h
    simp only [show ("document".toList).head? = some 'd' from rfl,
      Option.some.injEq] at h
    subst h
    exact ⟨by decide, by decide⟩
  · rw [if_neg hs] at h
    have := head?_stripChars h
    simp only [List.contains_cons, List.contains_nil] at this
    constructor
    · intro he
      subst he
      simp at this
    · intro he
      subst he
      simp at this

theorem sanitize_getLast? {x : List Char} {c : Char}
    (h : (sanitize_jobname x).getLast? = some c) : c ≠ '_' ∧ c ≠ '.' := by
  unfold sanitize_jobname at h
  simp only at h
  by_cases hs : stripChars ['.', '_']
      (x.map fun c => if keepChar c then c else '_') = []
  · rw [if_pos hs] at h
    simp only [show ("document".toList).getLast? = some 't' from rfl,
      Option.some.injEq] at h
    subst h
    exact ⟨by decide, by decide⟩
  · rw [if_neg hs] at h
    have := getLast?_stripChars h
    simp only [List.contains_cons, List.contains_nil] at this
    constructor
    · intro he
      subst he
      simp at this
    · intro he
      subst he
      simp at this

/-- C7: `sanitize` is idempotent: `sanitize(sanitize(x)) == sanitize(x)`
for every input string. -/
theorem sanitize_idempotent (x : List Char) :
    sanitize_jobname (sanitize_jobname x) = sanitize_jobname x := by
  have hmap : (sanitize_jobname x).map (fun c => if keepChar c then c else '_')
      = sanitize_jobname x := by
    refine map_eq_self_of_forall ?_
    intro c hc
    rw [if_pos (sanitize_mem_keep hc)]
  have hstrip : stripChars ['.', '_'] (sanitize_jobname x) = sanitize_jobname x := by
    refine stripChars_eq_self ?_ ?_
    · intro c hc
      have := sanitize_head? hc
      simp only [List.contains_cons, List.contains_nil]
      simp [this.1, this.2]
    · intro c hc
      have := sanitize_getLast? hc
      simp only [List.contains_cons, List.contains_nil]
      simp [this.1, this.2]
  show (let allowed := (sanitize_jobname x).map fun c => if keepChar c then c else '_'
    let stripped := stripChars ['.', '_'] allowed
    if stripped = [] then "document".toList else stripped) = sanitize_jobname x
  simp only [hmap, hstrip, if_neg (sanitize_ne_nil x)]

/-- C5 (amended): for every input string, `sanitize` never returns empty,
every character of the result is Python-alphanumeric (`str.isalnum`), a
hyphen, or an underscore, and the result neither starts nor ends with an
underscore or a dot.  (The original claim's ASCII-only alphabet
`[A-Za-z0-9_-]` fails: Python's `isalnum` also accepts non-ASCII
alphanumeric characters, which `sanitize` keeps — see the counterexample.) -/
theorem sanitize_charset_amended (x : List Char) :
    sanitize_jobname x ≠ [] ∧
    (sanitize_jobname x).all keepChar = true ∧
    (sanitize_jobname x).head? ≠ some '_' ∧
    (sanitize_jobname x).head? ≠ some '.' ∧
    (sanitize_jobname x).getLast? ≠ some '_' ∧
    (sanitize_jobname x).getLast? ≠ some '.' := by
  refine ⟨sanitize_ne_nil x, ?_, ?_, ?_, ?_, ?_⟩
  · rw [List.all_eq_true]
    intro c hc
    exact sanitize_mem_keep hc
  · intro h
    exact (sanitize_head? h).1 rfl
  · intro h
    exact (sanitize_head? h).2 rfl
  · intro h
    exact (sanitize_getLast? h).1 rfl
  · intro h
    exact (sanitize_getLast? h).2 rfl

/-- C5 counterexample: the claim "sanitize(x) contains no character outside
[A-Za-z0-9_-]" is false at the concrete input `"é"`: Python's `str.isalnum`
accepts the Latin-1 letter `é` (U+00E9), so `sanitize` keeps it, yet it
lies outside the ASCII class `[A-Za-z0-9_-]`. -/
theorem sanitize_ascii_charset_counterexample :
    sanitize_jobname "é".toList = "é".toList ∧
    'é' ∈ sanitize_jobname "é".toList ∧
    inAsciiClass 'é' = false := by
  refine ⟨?_, ?_, ?_⟩ <;> decide

/-- C8: `sanitize` maps the spec's concrete examples as stated:
`sanitize("My Doc!") == "My_Doc"`, `sanitize("..doc..") == "doc"`,
`sanitize("") == "document"`. -/
theorem sanitize_concrete_values :
    sanitize_jobname "My Doc!".toList = "My_Doc".toList ∧
    sanitize_jobname "..doc..".toList = "doc".toList ∧
    sanitize_jobname "".toList = "document".toList := by
  refine ⟨?_, ?_, ?_⟩ <;> decide

/- Characterization of `runPasses`. -/

theorem runPasses_all_zero (procs : Nat → ProcResult) :
    ∀ (n start : Nat), (∀ k, k < n → (procs (start + k)).exitZero = true) →
      (runPasses procs start n).1.length = n ∧
      (runPasses procs start n).2 = none := by
  intro n
  induction n with
  | zero => exact fun start _ => ⟨rfl, rfl⟩
  | succ m ih =>
    intro start h
    have h0 : (procs start).exitZero = true := by
      have := h 0 (Nat.succ_pos m)
      simpa using this
    have hrec := ih (start + 1) fun k hk => by
      have := h (k + 1) (by omega)
      rw [show start + (k + 1) = start + 1 + k by omega] at this
      exact this
    simp only [runPasses, h0, if_true, List.length_cons]
    exact ⟨by rw [hrec.1], hrec.2⟩

theorem runPasses_first_fail (procs : Nat → ProcResult) :
    ∀ (j n start : Nat), j < n →
      (∀ k, k < j → (procs (start + k)).exitZero = true) →
      (procs (start + j)).exitZero = false →
      (runPasses procs start n).1.length = j + 1 ∧
      (runPasses procs start n).2 = some (procs (start + j)).output := by
  intro j
  induction j with
  | zero =>
    intro n start hn _ hf
    cases n with
    | zero => omega
    | succ m =>
      rw [Nat.add_zero] at hf
      simp [runPasses, hf]
  | succ i ih =>
    intro n start hn hzero hf
    cases n with
    | zero => omega
    | succ m =>
      have h0 : (procs start).exitZero = true := by
        have := hzero 0 (Nat.succ_pos i)
        simpa using this
      have hz2 : ∀ k, k < i → (procs (start + 1 + k)).exitZero = true := by
        intro k hk
        have := hzero (k + 1) (by omega)
        rw [show start + (k + 1) = start + 1 + k by omega] at this
        exact this
      have hf2 : (procs (start + 1 + i)).exitZero = false := by
        rw [show start + 1 + i = start + (i + 1) by omega]
        exact hf
      have hrec := ih m (start + 1) (by omega) hz2 hf2
      simp only [runPasses, h0, if_true, List.length_cons]
      refine ⟨by rw [hrec.1], ?_⟩
      rw [hrec.2, show start + 1 + i = start + (i + 1) by omega]

/- Characterization of `compile_pdf` on the two availability cases. -/

theorem compile_pdf_unavailable_eq (r : LatexRenderer) (w : World)
    (tex_path : List Char) (runs : Int)
    (hav : r._pdflatex_available = false) :
    r.compile_pdf w tex_path runs = (.missingBinary, []) := by
  simp [LatexRenderer.compile_pdf, hav]

theorem compile_pdf_available_eq (r : LatexRenderer) (w : World)
    (tex_path : List Char) (runs : Int)
    (hav : r._pdflatex_available = true) :
    r.compile_pdf w tex_path runs =
      (match (runPasses w.procs 0 (max runs 1).toNat).2 with
        | some log => CompileOutcome.compileFailure log
        | none =>
          if w.pdfExists then
            CompileOutcome.success (with_suffix tex_path ".pdf".toList)
          else CompileOutcome.artifactNotProduced,
       (runPasses w.procs 0 (max runs 1).toNat).1.map fun pr =>
         SpawnRecord.mk
           (match r.tex_inputs with
            | none => SpawnEnv.inherited
            | some paths =>
              if paths = [] then SpawnEnv.inherited
              else SpawnEnv.withTexInputs
                (_join_tex_inputs w.pathsep w.tmpdir paths)) pr) := by
  simp [LatexRenderer.compile_pdf, hav]

/-- C2: when the construction-time availability probe found no compiler
binary, every `compile_pdf` invocation returns `MissingBinary` and spawns
no process at all (the availability check precedes any spawn; the outcome
is never discovered via a spawn failure). -/
theorem compile_missing_binary_no_spawn (r : LatexRenderer) (w : World)
    (tex_path : List Char) (runs : Int)
    (hav : r._pdflatex_available = false) :
    (r.compile_pdf w tex_path runs).1 = CompileOutcome.missingBinary ∧
    (r.compile_pdf w tex_path runs).2 = [] := by
  rw [compile_pdf_unavailable_eq r w tex_path runs hav]
  exact ⟨rfl, rfl⟩

/-- C2 witness at a concrete unavailable renderer. -/
theorem compile_missing_binary_no_spawn_witness :
    rUnavail._pdflatex_available = false ∧
    (rUnavail.compile_pdf wOK "/w/a.tex".toList 1).1
      = CompileOutcome.missingBinary ∧
    (rUnavail.compile_pdf wOK "/w/a.tex".toList 1).2 = [] :=
  ⟨rfl, compile_missing_binary_no_spawn rUnavail wOK "/w/a.tex".toList 1 rfl⟩

/-- C3: with the binary available, `compile_pdf` spawns exactly
`max(runs, 1)` passes when every pass exits zero (never fewer than one,
including `runs = 0` or negative); and when pass `j` is the first pass to
exit non-zero, no later pass is spawned (exactly `j + 1` spawns) and the
outcome is `CompileFailure` whose log is the captured output of the
failing pass only. -/
theorem compile_pass_count_and_abort (r : LatexRenderer) (w : World)
    (tex_path : List Char) (runs : Int)
    (hav : r._pdflatex_available = true) :
    1 ≤ (max runs 1).toNat ∧
    ((∀ k, k < (max runs 1).toNat → (w.procs k).exitZero = true) →
      (r.compile_pdf w tex_path runs).2.length = (max runs 1).toNat) ∧
    ∀ j, j < (max runs 1).toNat →
      (∀ k, k < j → (w.procs k).exitZero = true) →
      (w.procs j).exitZero = false →
      (r.compile_pdf w tex_path runs).1
          = CompileOutcome.compileFailure ((w.procs j).output) ∧
      (r.compile_pdf w tex_path runs).2.length = j + 1 := by
  rw [compile_pdf_available_eq r w tex_path runs hav]
  refine ⟨?_, ?_, ?_⟩
  · have h1 : (1 : Int) ≤ max runs 1 := le_max_right _ _
    omega
  · intro hall
    have h := runPasses_all_zero w.procs ((max runs 1).toNat) 0
      (fun k hk => by simpa using hall k hk)
    simpa using h.1
  · intro j hj hz hf
    have h := runPasses_first_fail w.procs j ((max runs 1).toNat) 0 hj
      (fun k hk => by simpa using hz k hk) (by simpa using hf)
    constructor
    · rw [h.2]
      simp
    · simpa using h.1

/-- C3 witness: with 3 passes requested and pass 0 failing, one spawn is
made and the log is that pass's output. -/
theorem compile_pass_count_and_abort_witness :
    rAvail._pdflatex_available = true ∧
    (0 : Nat) < (max (3 : Int) 1).toNat ∧
    (wFail.procs 0).exitZero = false ∧
    (rAvail.compile_pdf wFail "/w/a.tex".toList 3).1
        = CompileOutcome.compileFailure ((wFail.procs 0).output) ∧
    (rAvail.compile_pdf wFail "/w/a.tex".toList 3).2.length = 0 + 1 := by
  have h := (compile_pass_count_and_abort rAvail wFail "/w/a.tex".toList 3
    rfl).2.2 0 (by decide) (fun k hk => absurd hk (by omega)) rfl
  exact ⟨rfl, by decide, rfl, h.1, h.2⟩

/-- C4: with the binary available and every pass exiting zero, `compile_pdf`
returns `ArtifactNotProduced` when the expected artifact (the source path
with its extension replaced by `.pdf`) is absent, and `Success` with that
artifact path when it is present; the two failure outcomes are distinct
constructors. -/
theorem compile_artifact_check (r : LatexRenderer) (w : World)
    (tex_path : List Char) (runs : Int)
    (hav : r._pdflatex_available = true)
    (hall : ∀ k, k < (max runs 1).toNat → (w.procs k).exitZero = true) :
    (w.pdfExists = false →
      (r.compile_pdf w tex_path runs).1 = CompileOutcome.artifactNotProduced) ∧
    (w.pdfExists = true →
      (r.compile_pdf w tex_path runs).1
        = CompileOutcome.success (with_suffix tex_path ".pdf".toList)) ∧
    ∀ log, CompileOutcome.artifactNotProduced ≠ CompileOutcome.compileFailure log := by
  rw [compile_pdf_available_eq r w tex_path runs hav]
  have h := runPasses_all_zero w.procs ((max runs 1).toNat) 0
    (fun k hk => by simpa using hall k hk)
  refine ⟨?_, ?_, ?_⟩
  · intro hex
    rw [h.2]
    simp [hex]
  · intro hex
    rw [h.2]
    simp [hex]
  · intro log hlog
    exact CompileOutcome.noConfusion hlog

/-- C4 witness: concrete success run where the artifact exists. -/
theorem compile_artifact_check_witness :
    rAvail._pdflatex_available = true ∧
    wOK.pdfExists = true ∧
    (rAvail.compile_pdf wOK "/w/a.tex".toList 1).1
      = CompileOutcome.success (with_suffix "/w/a.tex".toList ".pdf".toList) :=
  ⟨rfl, rfl,
    (compile_artifact_check rAvail wOK "/w/a.tex".toList 1 rfl
      (fun _ _ => rfl)).2.1 rfl⟩

/-- C9: when the auxiliary search paths are non-empty, every spawned pass
receives the augmented `TEXINPUTS` value: the auxiliary paths, then an
empty entry, then the system temporary directory, in that order, joined
with the platform path separator. -/
theorem compile_texinputs_env (r : LatexRenderer) (w : World)
    (tex_path : List Char) (runs : Int) (paths : List (List Char))
    (hti : r.tex_inputs = some paths) (hne : paths ≠ []) :
    _join_tex_inputs w.pathsep w.tmpdir paths
      = List.intercalate w.pathsep (paths ++ [[], w.tmpdir]) ∧
    ∀ s ∈ (r.compile_pdf w tex_path runs).2,
      s.env = SpawnEnv.withTexInputs (_join_tex_inputs w.pathsep w.tmpdir paths) := by
  refine ⟨rfl, ?_⟩
  cases hav : r._pdflatex_available with
  | false =>
    rw [compile_pdf_unavailable_eq r w tex_path runs hav]
    intro s hs
    simp at hs
  | true =>
    rw [compile_pdf_available_eq r w tex_path runs hav]
    intro s hs
    simp only [hti, List.mem_map] at hs
    obtain ⟨pr, _, rfl⟩ := hs
    simp [hne]

/-- C9 witness: one concrete pass spawns with the augmented variable. -/
theorem compile_texinputs_env_witness :
    rTI.tex_inputs = some ["/sty".toList] ∧
    (rTI.compile_pdf wOK "/w/a.tex".toList 1).2.length = 1 ∧
    ∀ s ∈ (rTI.compile_pdf wOK "/w/a.tex".toList 1).2,
      s.env = SpawnEnv.withTexInputs
        (_join_tex_inputs wOK.pathsep wOK.tmpdir ["/sty".toList]) :=
  ⟨rfl, by decide,
    (compile_texinputs_env rTI wOK "/w/a.tex".toList 1 ["/sty".toList]
      rfl (by decide)).2⟩

/-- C10: when the auxiliary search paths are absent (`None`) or empty,
every spawned pass runs with the inherited process environment completely
unmodified (`env=None`). -/
theorem compile_inherited_env (r : LatexRenderer) (w : World)
    (tex_path : List Char) (runs : Int)
    (hti : r.tex_inputs = none ∨ r.tex_inputs = some []) :
    ∀ s ∈ (r.compile_pdf w tex_path runs).2, s.env = SpawnEnv.inherited := by
  cases hav : r._pdflatex_available with
  | false =>
    rw [compile_pdf_unavailable_eq r w tex_path runs hav]
    intro s hs
    simp at hs
  | true =>
    rw [compile_pdf_available_eq r w tex_path runs hav]
    intro s hs
    cases hti with
    | inl h =>
      simp only [h, List.mem_map] at hs
      obtain ⟨pr, _, rfl⟩ := hs
      rfl
    | inr h =>
      simp only [h, List.mem_map] at hs
      obtain ⟨pr, _, rfl⟩ := hs
      rfl

/-- C10 witness: concrete runs with `None` and with an empty list both
spawn with the inherited environment. -/
theorem compile_inherited_env_witness :
    rAvail.tex_inputs = none ∧
    rTIEmpty.tex_inputs = some [] ∧
    (rAvail.compile_pdf wOK "/w/a.tex".toList 1).2.length = 1 ∧
    (∀ s ∈ (rAvail.compile_pdf wOK "/w/a.tex".toList 1).2,
      s.env = SpawnEnv.inherited) ∧
    ∀ s ∈ (rTIEmpty.compile_pdf wOK "/w/a.tex".toList 1).2,
      s.env = SpawnEnv.inherited :=
  ⟨rfl, rfl, by decide,
    compile_inherited_env rAvail wOK "/w/a.tex".toList 1 (Or.inl rfl),
    compile_inherited_env rTIEmpty wOK "/w/a.tex".toList 1 (Or.inr rfl)⟩

/- Characterization of the service and tool layers. -/

theorem render_tex_false_eq (svc : LatexService) (w : World) (fs : FS)
    (tex : List Char) (jobname : Option (List Char)) (runs : Int) :
    svc.render_tex w fs tex jobname false runs =
      ⟨Except.ok ⟨jobOf w jobname, texPathOf svc w jobname, none⟩,
        fsWrite fs (texPathOf svc w jobname) tex, []⟩ := rfl

/-- C6: `render_tex` with compilation disabled writes the source file whose
content equals the source text exactly, returns a result whose artifact
field is empty, and never invokes the compiler (no process spawned). -/
theorem render_tex_source_only (svc : LatexService) (w : World) (fs : FS)
    (tex : List Char) (jobname : Option (List Char)) (runs : Int) :
    ∃ res : RenderResult,
      (svc.render_tex w fs tex jobname false runs).result = Except.ok res ∧
      res.pdf_path = none ∧
      (svc.render_tex w fs tex jobname false runs).fs res.tex_path = some tex ∧
      (svc.render_tex w fs tex jobname false runs).spawns = [] := by
  rw [render_tex_false_eq]
  exact ⟨⟨jobOf w jobname, texPathOf svc w jobname, none⟩, rfl, rfl,
    by simp [fsWrite], rfl⟩

theorem render_latex_document_missing_eq (svc : LatexService) (w : World)
    (fs : FS) (tex : List Char) (jobname : Option (List Char)) (runs : Int)
    (ctxPresent : Bool)
    (hm : (svc.render_tex w fs tex jobname true runs).result
      = Except.error ServiceError.missingBinary) :
    render_latex_document svc w fs tex jobname true runs ctxPresent =
      ⟨ToolOutcome.ok "LaTeX saved, but pdflatex was unavailable.".toList
          ctxPresent ⟨jobOf w jobname, texPathOf svc w jobname, none⟩,
        fsWrite (svc.render_tex w fs tex jobname true runs).fs
          (texPathOf svc w jobname) tex,
        (svc.render_tex w fs tex jobname true runs).spawns ++ [], 2⟩ := by
  simp only [render_latex_document]
  rw [hm]
  rfl

theorem render_latex_document_compilefail_eq (svc : LatexService) (w : World)
    (fs : FS) (tex : List Char) (jobname : Option (List Char)) (runs : Int)
    (ctxPresent : Bool) (log : List Char)
    (hm : (svc.render_tex w fs tex jobname true runs).result
      = Except.error (ServiceError.compileFailure log)) :
    render_latex_document svc w fs tex jobname true runs ctxPresent =
      ⟨ToolOutcome.toolError (ServiceError.compileFailure log),
        (svc.render_tex w fs tex jobname true runs).fs,
        (svc.render_tex w fs tex jobname true runs).spawns, 1⟩ := by
  simp only [render_latex_document]
  rw [hm]

theorem render_latex_document_artifact_eq (svc : LatexService) (w : World)
    (fs : FS) (tex : List Char) (jobname : Option (List Char)) (runs : Int)
    (ctxPresent : Bool)
    (hm : (svc.render_tex w fs tex jobname true runs).result
      = Except.error ServiceError.artifactNotProduced) :
    render_latex_document svc w fs tex jobname true runs ctxPresent =
      ⟨ToolOutcome.toolError ServiceError.artifactNotProduced,
        (svc.render_tex w fs tex jobname true runs).fs,
        (svc.render_tex w fs tex jobname true runs).spawns, 1⟩ := by
  simp only [render_latex_document]
  rw [hm]

theorem render_template_eq_of_some (svc : LatexService) (w : World) (fs : FS)
    (template_name : List Char) (jobname : Option (List Char))
    (compile_pdf : Bool) (runs : Int) (tex : List Char)
    (ht : w.templates template_name = some tex) :
    svc.render_template w fs template_name jobname compile_pdf runs
      = svc.render_tex w fs tex jobname compile_pdf runs := by
  simp only [LatexService.render_template]
  rw [ht]

theorem render_template_document_notfound_eq (svc : LatexService) (w : World)
    (fs : FS) (template_name : List Char) (jobname : Option (List Char))
    (compile_pdf : Bool) (runs : Int) (ctxPresent : Bool)
    (ht : w.templates template_name = none) :
    render_template_document svc w fs template_name jobname compile_pdf runs
        ctxPresent =
      ⟨ToolOutcome.toolError ServiceError.templateNotFound, fs, [], 1⟩ := by
  simp only [render_template_document, LatexService.render_template]
  rw [ht]

theorem render_template_document_missing_eq (svc : LatexService) (w : World)
    (fs : FS) (template_name : List Char) (jobname : Option (List Char))
    (runs : Int) (ctxPresent : Bool) (tex : List Char)
    (ht : w.templates template_name = some tex)
    (hm : (svc.render_tex w fs tex jobname true runs).result
      = Except.error ServiceError.missingBinary) :
    render_template_document svc w fs template_name jobname true runs
        ctxPresent =
      ⟨ToolOutcome.ok "Template rendered but pdflatex was unavailable.".toList
          ctxPresent ⟨jobOf w jobname, texPathOf svc w jobname, none⟩,
        fsWrite (svc.render_tex w fs tex jobname true runs).fs
          (texPathOf svc w jobname) tex,
        (svc.render_tex w fs tex jobname true runs).spawns ++ [], 2⟩ := by
  simp only [render_template_document, LatexService.render_template]
  rw [ht]
  simp only
  rw [hm]
  rfl

theorem render_template_document_compilefail_eq (svc : LatexService)
    (w : World) (fs : FS) (template_name : List Char)
    (jobname : Option (List Char)) (runs : Int) (ctxPresent : Bool)
    (tex log : List Char)
    (ht : w.templates template_name = some tex)
    (hm : (svc.render_tex w fs tex jobname true runs).result
      = Except.error (ServiceError.compileFailure log)) :
    render_template_document svc w fs template_name jobname true runs
        ctxPresent =
      ⟨ToolOutcome.toolError (ServiceError.compileFailure log),
        (svc.render_tex w fs tex jobname true runs).fs,
        (svc.render_tex w fs tex jobname true runs).spawns, 1⟩ := by
  simp only [render_template_document, LatexService.render_template]
  rw [ht]
  simp only
  rw [hm]

theorem render_template_document_artifact_eq (svc : LatexService)
    (w : World) (fs : FS) (template_name : List Char)
    (jobname : Option (List Char)) (runs : Int) (ctxPresent : Bool)
    (tex : List Char)
    (ht : w.templates template_name = some tex)
    (hm : (svc.render_tex w fs tex jobname true runs).result
      = Except.error ServiceError.artifactNotProduced) :
    render_template_document svc w fs template_name jobname true runs
        ctxPresent =
      ⟨ToolOutcome.toolError ServiceError.artifactNotProduced,
        (svc.render_tex w fs tex jobname true runs).fs,
        (svc.render_tex w fs tex jobname true runs).spawns, 1⟩ := by
  simp only [render_template_document, LatexService.render_template]
  rw [ht]
  simp only
  rw [hm]

theorem render_latex_document_calls_le (svc : LatexService) (w : World)
    (fs : FS) (tex : List Char) (jobname : Option (List Char))
    (compile_pdf : Bool) (runs : Int) (ctxPresent : Bool) :
    (render_latex_document svc w fs tex jobname compile_pdf runs
      ctxPresent).calls ≤ 2 := by
  simp only [render_latex_document]
  split
  · exact Nat.le_succ 1
  · split
    · split
      · exact Nat.le_refl 2
      · exact Nat.le_refl 2
    · exact Nat.le_succ 1
  · exact Nat.le_succ 1
  · exact Nat.le_succ 1
  · exact Nat.le_succ 1

theorem render_template_document_calls_le (svc : LatexService) (w : World)
    (fs : FS) (template_name : List Char) (jobname : Option (List Char))
    (compile_pdf : Bool) (runs : Int) (ctxPresent : Bool) :
    (render_template_document svc w fs template_name jobname compile_pdf runs
      ctxPresent).calls ≤ 2 := by
  simp only [render_template_document]
  split
  · exact Nat.le_succ 1
  · exact Nat.le_succ 1
  · split
    · split
      · exact Nat.le_refl 2
      · exact Nat.le_refl 2
    · exact Nat.le_succ 1
  · exact Nat.le_succ 1
  · exact Nat.le_succ 1

/-- C1: propagation policy of the Render Service boundary.  When a render
with compilation requested fails with `MissingBinary`
(`FileNotFoundError`), exactly one fallback attempt is made with
compilation disabled (two service invocations in total), producing a
source-only result (`pdf_path = None`) plus the non-fatal degraded
summary.  Every other failure — `CompileFailure`, `ArtifactNotProduced`
(both `LatexCompileError`s) and `TemplateNotFound` — is surfaced to the
caller unchanged as a `ToolError` with a single service invocation and no
retry; and no tool call ever makes more than two service invocations. -/
theorem render_fallback_policy (svc : LatexService) (w : World) (fs : FS)
    (tex template_name : List Char) (jobname : Option (List Char))
    (compile_pdf : Bool) (runs : Int) (ctxPresent : Bool) :
    ((svc.render_tex w fs tex jobname true runs).result
        = Except.error ServiceError.missingBinary →
      (render_latex_document svc w fs tex jobname true runs ctxPresent).calls
          = 2 ∧
      ∃ res, (render_latex_document svc w fs tex jobname true runs
            ctxPresent).outcome
          = ToolOutcome.ok "LaTeX saved, but pdflatex was unavailable.".toList
              ctxPresent res ∧
        res.pdf_path = none) ∧
    (∀ log, (svc.render_tex w fs tex jobname true runs).result
        = Except.error (ServiceError.compileFailure log) →
      (render_latex_document svc w fs tex jobname true runs ctxPresent).outcome
          = ToolOutcome.toolError (ServiceError.compileFailure log) ∧
      (render_latex_document svc w fs tex jobname true runs ctxPresent).calls
          = 1) ∧
    ((svc.render_tex w fs tex jobname true runs).result
        = Except.error ServiceError.artifactNotProduced →
      (render_latex_document svc w fs tex jobname true runs ctxPresent).outcome
          = ToolOutcome.toolError ServiceError.artifactNotProduced ∧
      (render_latex_document svc w fs tex jobname true runs ctxPresent).calls
          = 1) ∧
    (w.templates template_name = none →
      (render_template_document svc w fs template_name jobname compile_pdf
          runs ctxPresent).outcome
          = ToolOutcome.toolError ServiceError.templateNotFound ∧
      (render_template_document svc w fs template_name jobname compile_pdf
          runs ctxPresent).calls = 1) ∧
    ((svc.render_template w fs template_name jobname true runs).result
        = Except.error ServiceError.missingBinary →
      (render_template_document svc w fs template_name jobname true runs
          ctxPresent).calls = 2 ∧
      ∃ res, (render_template_document svc w fs template_name jobname true
            runs ctxPresent).outcome
          = ToolOutcome.ok
              "Template rendered but pdflatex was unavailable.".toList
              ctxPresent res ∧
        res.pdf_path = none) ∧
    (∀ log, (svc.render_template w fs template_name jobname true runs).result
        = Except.error (ServiceError.compileFailure log) →
      (render_template_document svc w fs template_name jobname true runs
          ctxPresent).outcome
          = ToolOutcome.toolError (ServiceError.compileFailure log) ∧
      (render_template_document svc w fs template_name jobname true runs
          ctxPresent).calls = 1) ∧
    ((svc.render_template w fs template_name jobname true runs).result
        = Except.error ServiceError.artifactNotProduced →
      (render_template_document svc w fs template_name jobname true runs
          ctxPresent).outcome
          = ToolOutcome.toolError ServiceError.artifactNotProduced ∧
      (render_template_document svc w fs template_name jobname true runs
          ctxPresent).calls = 1) ∧
    (render_latex_document svc w fs tex jobname compile_pdf runs
        ctxPresent).calls ≤ 2 ∧
    (render_template_document svc w fs template_name jobname compile_pdf runs
        ctxPresent).calls ≤ 2 := by
  refine ⟨?_, ?_, ?_, ?_, ?_, ?_, ?_, ?_, ?_⟩
  · intro hm
    rw [render_latex_document_missing_eq svc w fs tex jobname runs
      ctxPresent hm]
    exact ⟨rfl, ⟨jobOf w jobname, texPathOf svc w jobname, none⟩, rfl, rfl⟩
  · intro log hm
    rw [render_latex_document_compilefail_eq svc w fs tex jobname runs
      ctxPresent log hm]
    exact ⟨rfl, rfl⟩
  · intro hm
    rw [render_latex_document_artifact_eq svc w fs tex jobname runs
      ctxPresent hm]
    exact ⟨rfl, rfl⟩
  · intro ht
    rw [render_template_document_notfound_eq svc w fs template_name jobname
      compile_pdf runs ctxPresent ht]
    exact ⟨rfl, rfl⟩
  · intro hm
    cases hT : w.templates template_name with
    | none => simp [LatexService.render_template, hT] at hm
    | some tex2 =>
      rw [render_template_eq_of_some svc w fs template_name jobname true runs
        tex2 hT] at hm
      rw [render_template_document_missing_eq svc w fs template_name jobname
        runs ctxPresent tex2 hT hm]
      exact ⟨rfl, ⟨jobOf w jobname, texPathOf svc w jobname, none⟩, rfl, rfl⟩
  · intro log hm
    cases hT : w.templates template_name with
    | none => simp [LatexService.render_template, hT] at hm
    | some tex2 =>
      rw [render_template_eq_of_some svc w fs template_name jobname true runs
        tex2 hT] at hm
      rw [render_template_document_compilefail_eq svc w fs template_name
        jobname runs ctxPresent tex2 log hT hm]
      exact ⟨rfl, rfl⟩
  · intro hm
    cases hT : w.templates template_name with
    | none => simp [LatexService.render_template, hT] at hm
    | some tex2 =>
      rw [render_template_eq_of_some svc w fs template_name jobname true runs
        tex2 hT] at hm
      rw [render_template_document_artifact_eq svc w fs template_name jobname
        runs ctxPresent tex2 hT hm]
      exact ⟨rfl, rfl⟩
  · exact render_latex_document_calls_le svc w fs tex jobname compile_pdf
      runs ctxPresent
  · exact render_template_document_calls_le svc w fs template_name jobname
      compile_pdf runs ctxPresent

/-- C1 witness: with the compiler binary absent and compilation requested,
the concrete tool call makes exactly two service invocations and returns a
degraded source-only result. -/
theorem render_fallback_policy_witness :
    (svcUnavail.render_tex wOK fsEmpty "x".toList none true 1).result
        = Except.error ServiceError.missingBinary ∧
    (render_latex_document svcUnavail wOK fsEmpty "x".toList none true 1
        false).calls = 2 ∧
    ∃ res, (render_latex_document svcUnavail wOK fsEmpty "x".toList none true
          1 false).outcome
        = ToolOutcome.ok "LaTeX saved, but pdflatex was unavailable.".toList
            false res ∧
      res.pdf_path = none := by
  have h := (render_fallback_policy svcUnavail wOK fsEmpty "x".toList
    "t".toList none true 1 false).1 rfl
  exact ⟨rfl, h.1, h.2⟩

end TexMCP
